import Mathlib

/-! Formal model of the srm utility: a command-line tool that moves a single
file into /tmp by copying it and then deleting the original, with
phase-specific error reporting.  The Rust source (src/lib.rs, src/main.rs)
is embedded shallowly: the filesystem is a state mapping path strings to
byte contents, the OS primitives used by the program (std::fs::copy,
std::fs::remove_file, Path::exists) are modelled as functions on that
state, and the diagnostics the program prints are collected in an output
trace. -/

namespace Srm

/-- File contents: a sequence of byte values. -/
abbrev Bytes := List Nat

/-- The filesystem state visible to the program.  `files` maps a path to
the contents of the regular file stored there (`none` when no regular file
exists at that path); `isDir` marks paths occupied by directories;
`writeDenied` and `removeDenied` model OS-level permission failures for
creating/overwriting, respectively unlinking, the given path. -/
structure FS where
  files : String → Option Bytes
  isDir : String → Bool
  writeDenied : String → Bool
  removeDenied : String → Bool

/-- Model of the `std::io::Error` values the program's OS calls can
produce. -/
inductive IOError where
  | notFound
  | isADirectory
  | permissionDenied
  deriving DecidableEq

/-- The Display rendering of a `std::io::Error` (as produced by the OS on
Linux). -/
def IOError.display : IOError → String
  | .notFound => "No such file or directory (os error 2)"
  | .isADirectory => "Is a directory (os error 21)"
  | .permissionDenied => "Permission denied (os error 13)"

/-- The Debug rendering of a `std::io::Error` (as produced by the OS on
Linux). -/
def IOError.debugRepr : IOError → String
  | .notFound => "Os \x7b code: 2, kind: NotFound, message: \x22No such file or directory\x22 \x7d"
  | .isADirectory => "Os \x7b code: 21, kind: IsADirectory, message: \x22Is a directory\x22 \x7d"
  | .permissionDenied => "Os \x7b code: 13, kind: PermissionDenied, message: \x22Permission denied\x22 \x7d"

/-- The custom error enum of src/lib.rs (`FileError`): one variant per
failure phase, the copy and delete variants carrying the underlying OS
error. -/
inductive FileError where
  | NoFileSpecified
  | CopyError (err : IOError)
  | DeleteError (err : IOError)
  deriving DecidableEq

/-- The Display impl for `FileError` (src/lib.rs lines 19-27). -/
def FileError.display : FileError → String
  | .NoFileSpecified => "No input file specified"
  | .CopyError err => "Failed to copy file: " ++ err.display
  | .DeleteError err => "Failed to delete original file: " ++ err.display

/-- The derived Debug rendering of `FileError` (from `#[derive(Debug)]` on
the enum, src/lib.rs line 8). -/
def FileError.debugRepr : FileError → String
  | .NoFileSpecified => "NoFileSpecified"
  | .CopyError err => "CopyError(" ++ err.debugRepr ++ ")"
  | .DeleteError err => "DeleteError(" ++ err.debugRepr ++ ")"

/-- One line of program output, tagged with the stream it goes to. -/
inductive OutLine where
  | stdout (s : String)
  | stderr (s : String)
  deriving DecidableEq

/-- Model of `Path::new(p).exists()`: true when a regular file or a
directory occupies the path. -/
def pathExists (fs : FS) (p : String) : Bool :=
  (fs.files p).isSome || fs.isDir p

/-- Model of `std::fs::copy(fromPath, toPath)`: reads the regular file at
`fromPath` and writes its contents to `toPath`, returning the number of
bytes copied.  Fails when the source is a directory or absent, or when the
destination is a directory or the OS denies writing it. -/
def fsCopy (fs : FS) (fromPath toPath : String) : Except IOError (FS × Nat) :=
  if fs.isDir fromPath then .error .isADirectory
  else
    match fs.files fromPath with
    | none => .error .notFound
    | some c =>
      if fs.isDir toPath then .error .isADirectory
      else if fs.writeDenied toPath then .error .permissionDenied
      else .ok ({ fs with files := fun p => if p = toPath then some c else fs.files p }, c.length)

/-- Model of `std::fs::remove_file(file)`: unlinks the regular file at the
path.  Fails when the path is a directory or absent, or when the OS denies
unlinking it. -/
def fsRemoveFile (fs : FS) (file : String) : Except IOError FS :=
  if fs.isDir file then .error .isADirectory
  else
    match fs.files file with
    | none => .error .notFound
    | some _ =>
      if fs.removeDenied file then .error .permissionDenied
      else .ok { fs with files := fun p => if p = file then none else fs.files p }

/-- `copy_file` (src/lib.rs lines 57-59): `fs::copy` with the `io::Error`
wrapped into `FileError::CopyError`. -/
def copy_file (fs : FS) (fromPath toPath : String) : Except FileError (FS × Nat) :=
  match fsCopy fs fromPath toPath with
  | .error e => .error (.CopyError e)
  | .ok r => .ok r

/-- `delete_file` (src/lib.rs lines 62-64): `fs::remove_file` with the
`io::Error` wrapped into `FileError::DeleteError`. -/
def delete_file (fs : FS) (file : String) : Except FileError FS :=
  match fsRemoveFile fs file with
  | .error e => .error (.DeleteError e)
  | .ok fs1 => .ok fs1

/-- The destination path computed inside `process_file` (the local
`to_path` binding at src/lib.rs line 38): verbatim string concatenation
`format!("/tmp/\x7b\x7d_copy", file)`. -/
def to_path (file : String) : String :=
  "/tmp/" ++ file ++ "_copy"

/-- `process_file` (src/lib.rs lines 30-54): validate that the input path
exists, copy it to `/tmp/<file>_copy`, then delete the original.  Returns
the Rust function's result together with the final filesystem state and
the lines printed (stdout for progress, stderr for diagnostics). -/
def process_file (fs : FS) (file : String) : Except FileError Unit × FS × List OutLine :=
  if pathExists fs file = false then
    (.error .NoFileSpecified, fs,
      [.stderr ("Error: Input file \x27" ++ file ++ "\x27 does not exist")])
  else
    match copy_file fs file (to_path file) with
    | .error e =>
      (.error e, fs, [.stderr ("Error during file copy: " ++ e.display)])
    | .ok (fs1, bytes) =>
      let copyMsg := OutLine.stdout
        ("Successfully copied " ++ toString bytes ++ " bytes to " ++ to_path file)
      match delete_file fs1 file with
      | .error e => (.error e, fs1, [copyMsg])
      | .ok fs2 =>
        (.ok (), fs2, [copyMsg, .stdout "Original file successfully deleted"])

/-- `get_input_file` (src/main.rs lines 16-20):
`env::args().nth(1).ok_or(FileError::NoFileSpecified)`.  The argument list
includes the program name at index 0. -/
def get_input_file (args : List String) : Except FileError String :=
  match args.get? 1 with
  | some file => .ok file
  | none => .error .NoFileSpecified

/-- `main` (src/main.rs lines 7-13): resolve the input file from the
arguments, then process it.  A resolver failure propagates via `?` before
`process_file` runs, so the filesystem is untouched and nothing is
printed by the program itself. -/
def main (args : List String) (fs : FS) : Except FileError Unit × FS × List OutLine :=
  match get_input_file args with
  | .error e => (.error e, fs, [])
  | .ok file => process_file fs file

/-- The Rust runtime convention for `fn main() -> Result<(), E>` with
`E: Debug` (the `Termination` impl of the standard library): `Ok` exits
with status 0; `Err(e)` prints `Error: ` followed by the Debug rendering
of `e` to stderr and exits with status 1. -/
def runMain (args : List String) (fs : FS) : Nat × FS × List OutLine :=
  match main args fs with
  | (.ok _, fs1, out) => (0, fs1, out)
  | (.error e, fs1, out) => (1, fs1, out ++ [.stderr ("Error: " ++ e.debugRepr)])

/-- The file-name component of a path: the longest suffix containing no
separator character. -/
def fileNameOf (p : String) : String :=
  String.mk ((p.data.reverse.takeWhile (fun c => c != '/')).reverse)

/-- Modelled from the spec (section 3, Data Model), which is prose rather
than code under src/: `DestinationPath` is described there as
`<temp-dir>/<original-file-name>_copy`, i.e. the temp directory joined
with the file-name component of the input path, suffixed `_copy`. -/
def destinationPath_dataModel (file : String) : String :=
  "/tmp/" ++ fileNameOf file ++ "_copy"

/-- The empty filesystem: no files, no directories, nothing denied. -/
def fs0 : FS :=
  { files := fun _ => none
    isDir := fun _ => false
    writeDenied := fun _ => false
    removeDenied := fun _ => false }

/-- The filesystem state after `fs::copy` has written contents `c` to
`dst`. -/
def copiedFS (fs : FS) (dst : String) (c : Bytes) : FS :=
  { fs with files := fun p => if p = dst then some c else fs.files p }

/-- The filesystem state after a successful `process_file fs file` run on a
regular file with contents `c`: the original is gone and `/tmp/<file>_copy`
holds `c`. -/
def movedFS (fs : FS) (file : String) (c : Bytes) : FS :=
  { fs with files := fun p =>
      if p = file then none
      else if p = to_path file then some c else fs.files p }

/-- A filesystem holding one regular file `a.txt` with two bytes of
content. -/
def fsA : FS :=
  { fs0 with files := fun p => if p = "a.txt" then some [104, 105] else none }

/-- A filesystem holding one regular file `w.txt` whose destination path
under `/tmp` the OS refuses to write. -/
def fsW : FS :=
  { fs0 with
    files := fun p => if p = "w.txt" then some [1, 2, 3] else none
    writeDenied := fun p => p == to_path "w.txt" }

/-- A filesystem holding one regular file `b.txt` that the OS refuses to
unlink. -/
def fsB : FS :=
  { fs0 with
    files := fun p => if p = "b.txt" then some [104] else none
    removeDenied := fun p => p == "b.txt" }

/-- `fsB` after the copy phase of `process_file` has succeeded. -/
def fsB1 : FS := copiedFS fsB (to_path "b.txt") [104]

/-- A filesystem holding one directory `d`. -/
def fsDir : FS :=
  { fs0 with isDir := fun p => p == "d" }

/-! ### Helper lemmas -/

theorem string_length_append (s t : String) : (s ++ t).length = s.length + t.length := by
  cases s; cases t
  exact List.length_append ..

theorem to_path_ne (file : String) : to_path file ≠ file := by
  intro h
  have h1 := congrArg String.length h
  rw [to_path, string_length_append, string_length_append] at h1
  have h2 : ("/tmp/" : String).length = 5 := rfl
  have h3 : ("_copy" : String).length = 5 := rfl
  omega

theorem fsCopy_ok_inv (fs fs1 : FS) (f t : String) (n : Nat)
    (h : fsCopy fs f t = .ok (fs1, n)) :
    fs.isDir f = false ∧ ∃ c, fs.files f = some c ∧ n = c.length ∧
      fs1 = { fs with files := fun p => if p = t then some c else fs.files p } := by
  unfold fsCopy at h
  split at h
  · exact absurd h (by simp)
  · rename_i hdir
    split at h
    · exact absurd h (by simp)
    · rename_i c hc
      split at h
      · exact absurd h (by simp)
      · split at h
        · exact absurd h (by simp)
        · refine ⟨by simpa using hdir, c, hc, ?_, ?_⟩
          · exact (Prod.mk.injEq .. ▸ (Except.ok.injEq .. ▸ h)).2.symm
          · exact ((Prod.mk.injEq .. ▸ (Except.ok.injEq .. ▸ h)).1).symm

theorem copy_file_ok_iff (fs fs1 : FS) (f t : String) (n : Nat) :
    copy_file fs f t = .ok (fs1, n) ↔ fsCopy fs f t = .ok (fs1, n) := by
  unfold copy_file
  cases h : fsCopy fs f t with
  | error e => simp
  | ok r => simp

theorem copy_file_ok_eq (fs : FS) (f t : String) (c : Bytes)
    (hf : fs.files f = some c)
    (hd : fs.isDir f = false)
    (hdd : fs.isDir t = false)
    (hdw : fs.writeDenied t = false) :
    copy_file fs f t = .ok (copiedFS fs t c, c.length) := by
  simp [copy_file, fsCopy, copiedFS, hf, hd, hdd, hdw]

/-! ### Claims -/

/-- Claim C1: for every existing regular file F (in an environment where
the OS permits writing the destination and unlinking F), `process_file F`
succeeds, and afterward F no longer exists on the filesystem while
`/tmp/F_copy` exists and its contents equal F's original contents. -/
theorem process_file_moves (fs : FS) (file : String) (c : Bytes)
    (hf : fs.files file = some c)
    (hd : fs.isDir file = false)
    (hdd : fs.isDir (to_path file) = false)
    (hdw : fs.writeDenied (to_path file) = false)
    (hrm : fs.removeDenied file = false) :
    process_file fs file =
      (.ok (), movedFS fs file c,
        [.stdout ("Successfully copied " ++ toString c.length ++ " bytes to " ++ to_path file),
         .stdout "Original file successfully deleted"]) ∧
    pathExists (movedFS fs file c) file = false ∧
    (movedFS fs file c).files (to_path file) = some c := by
  have hne : file ≠ to_path file := fun h => to_path_ne file h.symm
  have hex : pathExists fs file = true := by simp [pathExists, hf]
  have hcopy := copy_file_ok_eq fs file (to_path file) c hf hd hdd hdw
  have hf1 : (copiedFS fs (to_path file) c).files file = some c := by
    simp [copiedFS, hne, hf]
  have hdel : delete_file (copiedFS fs (to_path file) c) file = .ok (movedFS fs file c) := by
    simp [delete_file, fsRemoveFile, copiedFS, movedFS, hd, hrm, hne, hf]
  refine ⟨?_, ?_, ?_⟩
  · simp [process_file, hex, hcopy, hdel]
  · simp [pathExists, movedFS, hd]
  · simp [movedFS, to_path_ne file, hne]

/-- Claim C1 witness: moving the two-byte file `a.txt`. -/
theorem process_file_moves_witness :
    process_file fsA "a.txt" =
      (.ok (), movedFS fsA "a.txt" [104, 105],
        [.stdout ("Successfully copied " ++ toString (2 : Nat) ++ " bytes to " ++ to_path "a.txt"),
         .stdout "Original file successfully deleted"]) ∧
    pathExists (movedFS fsA "a.txt" [104, 105]) "a.txt" = false ∧
    (movedFS fsA "a.txt" [104, 105]).files (to_path "a.txt") = some [104, 105] :=
  process_file_moves fsA "a.txt" [104, 105] rfl rfl rfl rfl rfl

/-- Claim C2: whenever the copy step of `process_file` fails with OS error
`e`, `process_file` returns `CopyError e`, emits a diagnostic carrying that
error to the error stream, and returns before any deletion is attempted:
the filesystem — in particular the original file — is left unchanged. -/
theorem process_file_copy_fail (fs : FS) (file : String) (e : IOError)
    (hex : pathExists fs file = true)
    (hcopy : fsCopy fs file (to_path file) = .error e) :
    process_file fs file =
      (.error (.CopyError e), fs,
        [.stderr ("Error during file copy: " ++ (FileError.CopyError e).display)]) := by
  simp [process_file, hex, copy_file, hcopy]

/-- Claim C2 witness: the OS refuses to write `/tmp/w.txt_copy`, so the
copy fails and `fsW` is returned unchanged. -/
theorem process_file_copy_fail_witness :
    process_file fsW "w.txt" =
      (.error (.CopyError .permissionDenied), fsW,
        [.stderr ("Error during file copy: " ++
           (FileError.CopyError .permissionDenied).display)]) :=
  process_file_copy_fail fsW "w.txt" .permissionDenied (by decide) (by rfl)

/-- Claim C3: when the copy step of `process_file` succeeded but the delete
step fails with OS error `e`, `process_file` returns `DeleteError e`, and
at that point the destination `/tmp/<file>_copy` holds the copied contents
while the original file still remains. -/
theorem process_file_delete_fail (fs fs1 : FS) (file : String) (c : Bytes) (n : Nat)
    (e : IOError)
    (hf : fs.files file = some c)
    (hcopy : copy_file fs file (to_path file) = .ok (fs1, n))
    (hdel : delete_file fs1 file = .error (.DeleteError e)) :
    process_file fs file =
      (.error (.DeleteError e), fs1,
        [.stdout ("Successfully copied " ++ toString n ++ " bytes to " ++ to_path file)]) ∧
    fs1.files (to_path file) = some c ∧
    fs1.files file = some c := by
  have hne : file ≠ to_path file := fun h => to_path_ne file h.symm
  have hex : pathExists fs file = true := by simp [pathExists, hf]
  obtain ⟨hd, c0, hc0, hn, hfs1⟩ :=
    fsCopy_ok_inv fs fs1 file (to_path file) n
      ((copy_file_ok_iff fs fs1 file (to_path file) n).mp hcopy)
  have hcc : c0 = c := by
    rw [hf] at hc0
    injection hc0 with h0
    exact h0.symm
  subst hcc
  refine ⟨?_, ?_, ?_⟩
  · simp [process_file, hex, hcopy, hdel]
  · simp [hfs1]
  · simp [hfs1, hne, hf]

/-- Claim C3 witness: the OS refuses to unlink `b.txt`; the copy has
succeeded, so `/tmp/b.txt_copy` and `b.txt` both hold the single byte. -/
theorem process_file_delete_fail_witness :
    process_file fsB "b.txt" =
      (.error (.DeleteError .permissionDenied), fsB1,
        [.stdout ("Successfully copied " ++ toString (1 : Nat) ++ " bytes to " ++ to_path "b.txt")]) ∧
    fsB1.files (to_path "b.txt") = some [104] ∧
    fsB1.files "b.txt" = some [104] :=
  process_file_delete_fail fsB fsB1 "b.txt" [104] 1 .permissionDenied rfl (by rfl) (by rfl)

/-- Claim C4: the destination path `process_file` copies to is exactly the
verbatim string concatenation `/tmp/` ++ path ++ `_copy`; the data model's
rendering `<temp-dir>/<original-file-name>_copy` agrees with it on plain
file names but diverges as soon as the path contains a separator, since
the code extracts no file-name component. -/
theorem to_path_verbatim :
    (∀ p : String, to_path p = "/tmp/" ++ p ++ "_copy") ∧
    (to_path "a/b.txt" == destinationPath_dataModel "a/b.txt") = false ∧
    to_path "a.txt" = destinationPath_dataModel "a.txt" :=
  ⟨fun _ => rfl, by decide, by decide⟩

/-- Claim C5: for a path that does not exist on the filesystem,
`process_file` fails with `NoFileSpecified` — the same variant the
argument resolver uses for a missing argument — and emits a diagnostic
naming the path to the error stream, leaving the filesystem untouched
(neither copy nor delete is attempted). -/
theorem process_file_missing_input (fs : FS) (file : String)
    (h : pathExists fs file = false) :
    process_file fs file =
      (.error .NoFileSpecified, fs,
        [.stderr ("Error: Input file \x27" ++ file ++ "\x27 does not exist")]) ∧
    get_input_file ["srm"] = .error .NoFileSpecified :=
  ⟨by simp [process_file, h], rfl⟩

/-- Claim C5 witness: processing `a.txt` on the empty filesystem. -/
theorem process_file_missing_input_witness :
    process_file fs0 "a.txt" =
      (.error .NoFileSpecified, fs0,
        [.stderr ("Error: Input file \x27" ++ "a.txt" ++ "\x27 does not exist")]) ∧
    get_input_file ["srm"] = .error .NoFileSpecified :=
  process_file_missing_input fs0 "a.txt" rfl

/-- Claim C6 counterexample: running with no positional argument fails, and
the runtime prints `Error: NoFileSpecified` — the Debug rendering — which
is not the Display text `No input file specified`; the Display text
appears nowhere in the run's output. -/
theorem runMain_shows_debug_rendering :
    runMain ["srm"] fs0 = (1, fs0, [.stderr "Error: NoFileSpecified"]) ∧
    ("Error: NoFileSpecified" == "Error: " ++ FileError.display .NoFileSpecified) = false ∧
    ("Error: NoFileSpecified" == FileError.display .NoFileSpecified) = false :=
  ⟨rfl, by decide, by decide⟩

/-- Claim C6 (amended): a successful run exits with status 0; a run ending
in an error exits with status 1 after the runtime appends `Error: `
followed by the error's Debug rendering (not its Display text) to the
error stream. -/
theorem runMain_exit_codes (args : List String) (fs : FS) :
    (∀ fs1 out, main args fs = (.ok (), fs1, out) → runMain args fs = (0, fs1, out)) ∧
    (∀ e fs1 out, main args fs = (.error e, fs1, out) →
      runMain args fs = (1, fs1, out ++ [.stderr ("Error: " ++ e.debugRepr)])) := by
  constructor
  · intro fs1 out h
    simp [runMain, h]
  · intro e fs1 out h
    simp [runMain, h]

/-- Claim C6 witness: the argument-less run exits 1 with the Debug
rendering appended. -/
theorem runMain_exit_codes_witness :
    runMain ["srm"] fs0 =
      (1, fs0, [] ++ [.stderr ("Error: " ++ FileError.debugRepr .NoFileSpecified)]) :=
  (runMain_exit_codes ["srm"] fs0).2 .NoFileSpecified fs0 [] rfl

/-- Claim C7: the Display rendering of the error type produces exactly the
three documented strings, with the underlying OS error's text preserved in
the copy and delete variants. -/
theorem fileError_display_strings :
    FileError.display .NoFileSpecified = "No input file specified" ∧
    (∀ e, FileError.display (.CopyError e) = "Failed to copy file: " ++ e.display) ∧
    (∀ e, FileError.display (.DeleteError e) = "Failed to delete original file: " ++ e.display) :=
  ⟨rfl, fun _ => rfl, fun _ => rfl⟩

/-- Claim C8: for an existing regular source file with contents `c` and a
writable destination, `copy_file` succeeds, returns the byte count
`c.length`, and afterward the destination holds exactly `c`; for a
non-existent source, `copy_file` fails with `CopyError` wrapping the OS
error. -/
theorem copy_file_contract :
    (∀ (fs : FS) (src dst : String) (c : Bytes),
      fs.files src = some c → fs.isDir src = false → fs.isDir dst = false →
      fs.writeDenied dst = false →
      copy_file fs src dst = .ok (copiedFS fs dst c, c.length) ∧
      (copiedFS fs dst c).files dst = some c) ∧
    (∀ (fs : FS) (src dst : String),
      fs.files src = none → fs.isDir src = false →
      copy_file fs src dst = .error (.CopyError .notFound)) := by
  constructor
  · intro fs src dst c hf hd hdd hdw
    exact ⟨copy_file_ok_eq fs src dst c hf hd hdd hdw, by simp [copiedFS]⟩
  · intro fs src dst hf hd
    simp [copy_file, fsCopy, hf, hd]

/-- Claim C8 witness: copying the two-byte `a.txt` to `/tmp/out`, and a
missing source on the empty filesystem. -/
theorem copy_file_contract_witness :
    (copy_file fsA "a.txt" "/tmp/out" = .ok (copiedFS fsA "/tmp/out" [104, 105], 2) ∧
      (copiedFS fsA "/tmp/out" [104, 105]).files "/tmp/out" = some [104, 105]) ∧
    copy_file fs0 "missing.txt" "/tmp/out" = .error (.CopyError .notFound) :=
  ⟨copy_file_contract.1 fsA "a.txt" "/tmp/out" [104, 105] rfl rfl rfl rfl,
   copy_file_contract.2 fs0 "missing.txt" "/tmp/out" rfl rfl⟩

/-- Claim C9: the argument resolver returns the element at index 1 of the
argument list (index 0 being the program name) when present, and fails
with `NoFileSpecified` when no positional argument is supplied. -/
theorem get_input_file_contract :
    (∀ (prog file : String) (rest : List String),
      get_input_file (prog :: file :: rest) = .ok file) ∧
    (∀ prog : String, get_input_file [prog] = .error .NoFileSpecified) ∧
    get_input_file ([] : List String) = .error .NoFileSpecified :=
  ⟨fun _ _ _ => rfl, fun _ => rfl, rfl⟩

/-- Claim C10: a path occupied by a directory passes the existence
pre-check, so `process_file` fails in the copy step with `CopyError`
wrapping the OS error — not with `NoFileSpecified` — and the filesystem,
hence the directory and its contents, is left unchanged. -/
theorem process_file_directory_input (fs : FS) (p : String)
    (hd : fs.isDir p = true) :
    pathExists fs p = true ∧
    process_file fs p =
      (.error (.CopyError .isADirectory), fs,
        [.stderr ("Error during file copy: " ++ (FileError.CopyError .isADirectory).display)]) := by
  have hex : pathExists fs p = true := by simp [pathExists, hd]
  refine ⟨hex, ?_⟩
  simp [process_file, hex, copy_file, fsCopy, hd]

/-- Claim C10 witness: processing the directory `d`. -/
theorem process_file_directory_input_witness :
    pathExists fsDir "d" = true ∧
    process_file fsDir "d" =
      (.error (.CopyError .isADirectory), fsDir,
        [.stderr ("Error during file copy: " ++ (FileError.CopyError .isADirectory).display)]) :=
  process_file_directory_input fsDir "d" (by decide)

end Srm
